import Mathlib

/-!
Shallow embedding of the DDoS mitigation decision pipeline
(src/src/core/rate_limiter.py, ip_filter.py, traffic_monitor.py,
mitigation_system.py).

Modelling conventions:
* Timestamps and durations are rationals (`ℚ`), standing in for Python's
  real-valued `time.time()`.  Each public operation takes the current time
  `now` explicitly; the several `time.time()` calls inside one
  `process_request` are modelled as a single instant.
* Python dicts keyed by IP become total functions `Address → _` with the
  dict's default as the default value (`defaultdict(list)` gives `[]`,
  plain dicts give `none`); Python sets become `Finset String`.
* Reason strings become the enumeration `Reason`, one constructor per
  distinct message shape; the embedded remaining-seconds count uses
  Python's `int()` truncation toward zero (`truncInt`).
* Thread locks, logging and the `details` dict (which only echoes inputs
  and the chosen reason) are elided; `round(rate, 2)` display rounding of
  stored rates is elided since time is modelled as exact rationals.
-/

abbrev Address := String

/-- Point update of a total map, modelling `d[k] = v` on a Python dict. -/
def updFn {β : Type} (f : Address → β) (k : Address) (v : β) : Address → β :=
  fun a => if a = k then v else f a

/-- Python `int()` applied to a real number: truncation toward zero. -/
def truncInt (q : ℚ) : ℤ :=
  if q < 0 then -((-q).floor) else q.floor

/-- Severity levels produced by `TrafficMonitor._calculate_severity`. -/
inductive Severity where
  | LOW
  | MEDIUM
  | HIGH
  | CRITICAL
  deriving DecidableEq

/-- One constructor per distinct reason message produced by the pipeline:
`whitelisted` covers "Whitelisted" / "Whitelisted IP", `allowedOk` covers
"Allowed" / "Request allowed", `tempBlocked r` is the IP-filter message
with its remaining-seconds count, `rateLimitBlocked r` is the rate
limiter's existing-block message, `rateLimitExceeded` its fresh-block
message, and `suspiciousActivity` the coordinator's anomaly denial. -/
inductive Reason where
  | whitelisted
  | blacklisted
  | tempBlocked (remaining : ℤ)
  | allowedOk
  | rateLimitBlocked (remaining : ℤ)
  | rateLimitExceeded
  | suspiciousActivity
  deriving DecidableEq

/-- Keep the timestamps within `window` seconds of `now`: the list
comprehension `[t for t in reqs if now - t < window]` used by both
sliding windows. -/
def pruneWindow (now window : ℚ) (reqs : List ℚ) : List ℚ :=
  reqs.filter (fun t => decide (now - t < window))

/-! ## RateLimiter (src/src/core/rate_limiter.py) -/

structure RateLimiter where
  maxRequests : ℕ
  timeWindow : ℚ
  blockDuration : ℚ
  requests : Address → List ℚ
  blockedIps : Address → Option ℚ

/-- `RateLimiter(max_requests, time_window, block_duration)` with its
initially empty tracking maps. -/
def RateLimiter.fresh (maxRequests : ℕ) (timeWindow blockDuration : ℚ) :
    RateLimiter :=
  { maxRequests := maxRequests
    timeWindow := timeWindow
    blockDuration := blockDuration
    requests := fun _ => []
    blockedIps := fun _ => none }

/-- The prune / limit-check / record part of `RateLimiter.is_allowed`,
reached once no unexpired block entry stands. -/
def RateLimiter.isAllowedCore (rl : RateLimiter) (ip : Address) (now : ℚ) :
    Bool × Option Reason × RateLimiter :=
  let pruned := pruneWindow now rl.timeWindow (rl.requests ip)
  if rl.maxRequests ≤ pruned.length then
    (false, some .rateLimitExceeded,
      { rl with
        requests := updFn rl.requests ip pruned
        blockedIps := updFn rl.blockedIps ip (some (now + rl.blockDuration)) })
  else
    (true, none, { rl with requests := updFn rl.requests ip (pruned ++ [now]) })

/-- `RateLimiter.is_allowed(ip)`: deny on an unexpired block (evicting an
expired one), then prune the window, deny-and-block at `maxRequests`, or
append `now` and allow. -/
def RateLimiter.isAllowed (rl : RateLimiter) (ip : Address) (now : ℚ) :
    Bool × Option Reason × RateLimiter :=
  match rl.blockedIps ip with
  | some expiry =>
      if now < expiry then
        (false, some (.rateLimitBlocked (truncInt (expiry - now))), rl)
      else
        RateLimiter.isAllowedCore
          { rl with blockedIps := updFn rl.blockedIps ip none } ip now
  | none => RateLimiter.isAllowedCore rl ip now

/-- `RateLimiter.get_request_count(ip)`: prunes, then reports the size. -/
def RateLimiter.getRequestCount (rl : RateLimiter) (ip : Address) (now : ℚ) :
    ℕ × RateLimiter :=
  let pruned := pruneWindow now rl.timeWindow (rl.requests ip)
  (pruned.length, { rl with requests := updFn rl.requests ip pruned })

/-- `RateLimiter.is_blocked(ip)`: true on an unexpired block, lazily
evicting an expired entry. -/
def RateLimiter.isBlocked (rl : RateLimiter) (ip : Address) (now : ℚ) :
    Bool × RateLimiter :=
  match rl.blockedIps ip with
  | some expiry =>
      if now < expiry then (true, rl)
      else (false, { rl with blockedIps := updFn rl.blockedIps ip none })
  | none => (false, rl)

/-- `RateLimiter.block_ip(ip, duration)`; `duration if duration else
self.block_duration` treats both `None` and `0` as absent. -/
def RateLimiter.blockIp (rl : RateLimiter) (ip : Address)
    (duration : Option ℚ) (now : ℚ) : RateLimiter :=
  let d := match duration with
    | some d => if d = 0 then rl.blockDuration else d
    | none => rl.blockDuration
  { rl with blockedIps := updFn rl.blockedIps ip (some (now + d)) }

/-- `RateLimiter.unblock_ip(ip)`. -/
def RateLimiter.unblockIp (rl : RateLimiter) (ip : Address) : RateLimiter :=
  { rl with blockedIps := updFn rl.blockedIps ip none }

/-- `RateLimiter.reset()`. -/
def RateLimiter.reset (rl : RateLimiter) : RateLimiter :=
  { rl with requests := fun _ => [], blockedIps := fun _ => none }

/-- Run a sequence of `is_allowed` calls at the given times, collecting
each verdict. -/
def RateLimiter.run (rl : RateLimiter) (ip : Address) :
    List ℚ → List (Bool × Option Reason) × RateLimiter
  | [] => ([], rl)
  | t :: ts =>
      let step := rl.isAllowed ip t
      let rest := step.2.2.run ip ts
      ((step.1, step.2.1) :: rest.1, rest.2)

/-! ## IPFilter (src/src/core/ip_filter.py) -/

structure IPFilter where
  whitelist : Finset String
  blacklist : Finset String
  tempBlocks : Address → Option ℚ

/-- `IPFilter()` with no initial whitelist or blacklist. -/
def IPFilter.empty : IPFilter :=
  { whitelist := ∅, blacklist := ∅, tempBlocks := fun _ => none }

/-- `IPFilter.is_allowed(ip)`: whitelist short-circuits, then blacklist,
then the temp-block map with lazy expiry. -/
def IPFilter.isAllowed (f : IPFilter) (ip : Address) (now : ℚ) :
    Bool × Reason × IPFilter :=
  if ip ∈ f.whitelist then (true, .whitelisted, f)
  else if ip ∈ f.blacklist then (false, .blacklisted, f)
  else
    match f.tempBlocks ip with
    | some expiry =>
        if now < expiry then
          (false, .tempBlocked (truncInt (expiry - now)), f)
        else
          (true, .allowedOk, { f with tempBlocks := updFn f.tempBlocks ip none })
    | none => (true, .allowedOk, f)

/-- `IPFilter.add_to_whitelist(ip)`. -/
def IPFilter.addToWhitelist (f : IPFilter) (ip : Address) : IPFilter :=
  { f with
    whitelist := insert ip f.whitelist
    blacklist := f.blacklist.erase ip
    tempBlocks := updFn f.tempBlocks ip none }

/-- `IPFilter.remove_from_whitelist(ip)`. -/
def IPFilter.removeFromWhitelist (f : IPFilter) (ip : Address) : IPFilter :=
  { f with whitelist := f.whitelist.erase ip }

/-- `IPFilter.add_to_blacklist(ip)`. -/
def IPFilter.addToBlacklist (f : IPFilter) (ip : Address) : IPFilter :=
  { f with
    blacklist := insert ip f.blacklist
    whitelist := f.whitelist.erase ip
    tempBlocks := updFn f.tempBlocks ip none }

/-- `IPFilter.remove_from_blacklist(ip)`. -/
def IPFilter.removeFromBlacklist (f : IPFilter) (ip : Address) : IPFilter :=
  { f with blacklist := f.blacklist.erase ip }

/-- `IPFilter.block_temporarily(ip, duration)`: no-op on whitelisted or
blacklisted addresses. -/
def IPFilter.blockTemporarily (f : IPFilter) (ip : Address)
    (duration now : ℚ) : IPFilter :=
  if ip ∉ f.whitelist ∧ ip ∉ f.blacklist then
    { f with tempBlocks := updFn f.tempBlocks ip (some (now + duration)) }
  else f

/-- `IPFilter.unblock(ip)`. -/
def IPFilter.unblock (f : IPFilter) (ip : Address) : IPFilter :=
  { f with tempBlocks := updFn f.tempBlocks ip none }

/-- `IPFilter.is_temp_blocked(ip)`: lazily evicts an expired entry. -/
def IPFilter.isTempBlocked (f : IPFilter) (ip : Address) (now : ℚ) :
    Bool × IPFilter :=
  match f.tempBlocks ip with
  | some expiry =>
      if now < expiry then (true, f)
      else (false, { f with tempBlocks := updFn f.tempBlocks ip none })
  | none => (false, f)

/-- The expired-entry cleanup `IPFilter.get_stats` performs as a side
effect: every entry with `now >= expiry` is deleted. -/
def IPFilter.statsCleanup (f : IPFilter) (now : ℚ) : IPFilter :=
  { f with
    tempBlocks := fun a =>
      match f.tempBlocks a with
      | some expiry => if now < expiry then some expiry else none
      | none => none }

/-- `IPFilter.reset()`: clears temp blocks only. -/
def IPFilter.reset (f : IPFilter) : IPFilter :=
  { f with tempBlocks := fun _ => none }

/-! ## TrafficMonitor (src/src/core/traffic_monitor.py) -/

structure Alert where
  timestamp : ℚ
  ip : Address
  requestRate : ℚ
  endpoint : String
  method : String
  violationCount : ℕ
  severity : Severity
  deriving DecidableEq

structure SuspiciousDetails where
  requestRate : ℚ
  threshold : ℚ
  violations : ℕ
  severity : Severity
  deriving DecidableEq

structure TrafficMonitor where
  suspiciousThreshold : ℚ
  detectionWindow : ℚ
  alertThreshold : ℕ
  ipRequests : Address → List ℚ
  ipViolations : Address → ℕ
  alerts : List Alert

/-- `TrafficMonitor(suspicious_threshold, detection_window,
alert_threshold)` with empty tracking state. -/
def TrafficMonitor.fresh (suspiciousThreshold detectionWindow : ℚ)
    (alertThreshold : ℕ) : TrafficMonitor :=
  { suspiciousThreshold := suspiciousThreshold
    detectionWindow := detectionWindow
    alertThreshold := alertThreshold
    ipRequests := fun _ => []
    ipViolations := fun _ => 0
    alerts := [] }

/-- `TrafficMonitor._calculate_severity(request_rate)`. -/
def TrafficMonitor.calcSeverity (tm : TrafficMonitor) (rate : ℚ) : Severity :=
  if rate > tm.suspiciousThreshold * 10 then .CRITICAL
  else if rate > tm.suspiciousThreshold * 5 then .HIGH
  else if rate > tm.suspiciousThreshold * 2 then .MEDIUM
  else .LOW

/-- The alert record built by `TrafficMonitor._trigger_alert`. -/
def TrafficMonitor.mkAlert (tm : TrafficMonitor) (ip : Address) (rate : ℚ)
    (endpoint method : String) (now : ℚ) : Alert :=
  { timestamp := now
    ip := ip
    requestRate := rate
    endpoint := endpoint
    method := method
    violationCount := tm.ipViolations ip
    severity := tm.calcSeverity rate }

/-- `TrafficMonitor._trigger_alert`: append the alert, then drop the
oldest entry if the log exceeds 100. -/
def TrafficMonitor.triggerAlert (tm : TrafficMonitor) (ip : Address)
    (rate : ℚ) (endpoint method : String) (now : ℚ) : TrafficMonitor :=
  let grown := tm.alerts ++ [tm.mkAlert ip rate endpoint method now]
  { tm with alerts := if 100 < grown.length then grown.tail else grown }

/-- `TrafficMonitor.record_request(ip, endpoint, method)`: prune, append
`now`, compute the rate, and on a violation possibly raise an alert. -/
def TrafficMonitor.recordRequest (tm : TrafficMonitor) (ip : Address)
    (endpoint method : String) (now : ℚ) : TrafficMonitor :=
  let newWindow := pruneWindow now tm.detectionWindow (tm.ipRequests ip) ++ [now]
  let tm1 := { tm with ipRequests := updFn tm.ipRequests ip newWindow }
  let rate := (newWindow.length : ℚ) / tm1.detectionWindow
  if rate > tm1.suspiciousThreshold then
    let tm2 :=
      { tm1 with ipViolations := updFn tm1.ipViolations ip (tm1.ipViolations ip + 1) }
    if tm2.alertThreshold ≤ tm2.ipViolations ip then
      tm2.triggerAlert ip rate endpoint method now
    else tm2
  else tm1

/-- `TrafficMonitor.is_suspicious(ip)`: re-prune, recompute the rate, and
report details iff the rate exceeds the threshold. -/
def TrafficMonitor.isSuspicious (tm : TrafficMonitor) (ip : Address)
    (now : ℚ) : (Bool × Option SuspiciousDetails) × TrafficMonitor :=
  let pruned := pruneWindow now tm.detectionWindow (tm.ipRequests ip)
  let tm1 := { tm with ipRequests := updFn tm.ipRequests ip pruned }
  if pruned.isEmpty then ((false, none), tm1)
  else
    let rate := (pruned.length : ℚ) / tm1.detectionWindow
    if rate > tm1.suspiciousThreshold then
      ((true, some
        { requestRate := rate
          threshold := tm1.suspiciousThreshold
          violations := tm1.ipViolations ip
          severity := tm1.calcSeverity rate }), tm1)
    else ((false, none), tm1)

/-- `TrafficMonitor.get_recent_alerts(limit)`: the Python slice
`alerts[-limit:]`, for the non-negative limits the system uses. -/
def TrafficMonitor.getRecentAlerts (tm : TrafficMonitor) (limit : ℕ) :
    List Alert :=
  if limit = 0 then tm.alerts else tm.alerts.drop (tm.alerts.length - limit)

/-- `TrafficMonitor.reset_violations(ip)`. -/
def TrafficMonitor.resetViolations (tm : TrafficMonitor) (ip : Address) :
    TrafficMonitor :=
  { tm with ipViolations := updFn tm.ipViolations ip 0 }

/-- One `_trigger_alert` invocation's inputs, for replaying a sequence of
alert-worthy events. -/
structure AlertEvent where
  ip : Address
  rate : ℚ
  endpoint : String
  method : String
  now : ℚ
  deriving DecidableEq

/-- Replay a sequence of `_trigger_alert` calls. -/
def TrafficMonitor.fireAll (tm : TrafficMonitor) :
    List AlertEvent → TrafficMonitor
  | [] => tm
  | e :: es => (tm.triggerAlert e.ip e.rate e.endpoint e.method e.now).fireAll es

/-! ## DDoSMitigationSystem (src/src/core/mitigation_system.py) -/

structure MitigationSystem where
  autoBlock : Bool
  rateLimiter : RateLimiter
  trafficMonitor : TrafficMonitor
  ipFilter : IPFilter

/-- A system assembled from fresh components, as `_initialize_components`
does; `autoBlock` embeds `config.get('ip_blocking.auto_block', True)`. -/
def MitigationSystem.fresh (autoBlock : Bool) (maxRequests : ℕ)
    (timeWindow blockDuration suspiciousThreshold detectionWindow : ℚ)
    (alertThreshold : ℕ) : MitigationSystem :=
  { autoBlock := autoBlock
    rateLimiter := RateLimiter.fresh maxRequests timeWindow blockDuration
    trafficMonitor :=
      TrafficMonitor.fresh suspiciousThreshold detectionWindow alertThreshold
    ipFilter := IPFilter.empty }

/-- `DDoSMitigationSystem.process_request(ip, endpoint, method)`:
IP filter, whitelist bypass, rate limiter (with auto-block escalation),
then monitor record / suspicious check with severity-gated auto-block. -/
def MitigationSystem.processRequest (s : MitigationSystem)
    (ip endpoint method : String) (now : ℚ) :
    Bool × Reason × MitigationSystem :=
  let fstep := s.ipFilter.isAllowed ip now
  let s1 := { s with ipFilter := fstep.2.2 }
  if !fstep.1 then (false, fstep.2.1, s1)
  else if ip ∈ s1.ipFilter.whitelist then
    (true, .whitelisted,
      { s1 with
        trafficMonitor := s1.trafficMonitor.recordRequest ip endpoint method now })
  else
    let rstep := s1.rateLimiter.isAllowed ip now
    let s2 := { s1 with rateLimiter := rstep.2.2 }
    if !rstep.1 then
      let s3 :=
        if s2.autoBlock then
          { s2 with
            ipFilter :=
              s2.ipFilter.blockTemporarily ip s2.rateLimiter.blockDuration now }
        else s2
      (false, (rstep.2.1).getD .rateLimitExceeded, s3)
    else
      let tm1 := s2.trafficMonitor.recordRequest ip endpoint method now
      let sstep := tm1.isSuspicious ip now
      let s3 := { s2 with trafficMonitor := sstep.2 }
      match sstep.1 with
      | (true, some d) =>
          if s3.autoBlock ∧ (d.severity = .HIGH ∨ d.severity = .CRITICAL) then
            (false, .suspiciousActivity,
              { s3 with ipFilter := s3.ipFilter.blockTemporarily ip 600 now })
          else (true, .allowedOk, s3)
      | _ => (true, .allowedOk, s3)

/-- `DDoSMitigationSystem.block_ip(ip, duration, permanent)`; the Python
default `duration or block_duration` treats `None` and `0` alike. -/
def MitigationSystem.blockIp (s : MitigationSystem) (ip : Address)
    (duration : Option ℚ) (permanent : Bool) (now : ℚ) : MitigationSystem :=
  if permanent then { s with ipFilter := s.ipFilter.addToBlacklist ip }
  else
    let d := match duration with
      | some d => if d = 0 then s.rateLimiter.blockDuration else d
      | none => s.rateLimiter.blockDuration
    { s with ipFilter := s.ipFilter.blockTemporarily ip d now }

/-- `DDoSMitigationSystem.unblock_ip(ip)`: clear the temp block, the rate
limiter block, and the monitor violations. -/
def MitigationSystem.unblockIp (s : MitigationSystem) (ip : Address) :
    MitigationSystem :=
  { s with
    ipFilter := s.ipFilter.unblock ip
    rateLimiter := s.rateLimiter.unblockIp ip
    trafficMonitor := s.trafficMonitor.resetViolations ip }

/-- `DDoSMitigationSystem.whitelist_ip(ip)`. -/
def MitigationSystem.whitelistIp (s : MitigationSystem) (ip : Address) :
    MitigationSystem :=
  { s with ipFilter := s.ipFilter.addToWhitelist ip }

/-- `DDoSMitigationSystem.get_recent_alerts(limit)`. -/
def MitigationSystem.getRecentAlerts (s : MitigationSystem) (limit : ℕ) :
    List Alert :=
  s.trafficMonitor.getRecentAlerts limit

/-- Run a sequence of `process_request` calls for one address at the
given times, collecting each verdict and reason. -/
def MitigationSystem.runRequests (s : MitigationSystem)
    (ip endpoint method : String) :
    List ℚ → List (Bool × Reason) × MitigationSystem
  | [] => ([], s)
  | t :: ts =>
      let step := s.processRequest ip endpoint method t
      let rest := step.2.2.runRequests ip endpoint method ts
      ((step.1, step.2.1) :: rest.1, rest.2)

/-- The alert-log update `_trigger_alert` performs: append, then pop the
oldest entry when the log exceeds 100. -/
def alertPush (l : List Alert) (a : Alert) : List Alert :=
  let grown := l ++ [a]
  if 100 < grown.length then grown.tail else grown

/-- States of the access registry reachable from the default construction
`IPFilter()` by any sequence of its public operations (including the
lazy-expiry state changes of the read operations). -/
inductive IPFilter.Reachable : IPFilter → Prop where
  | init : IPFilter.Reachable IPFilter.empty
  | isAllowedStep (f : IPFilter) (ip : Address) (now : ℚ) :
      IPFilter.Reachable f → IPFilter.Reachable (f.isAllowed ip now).2.2
  | addToWhitelistStep (f : IPFilter) (ip : Address) :
      IPFilter.Reachable f → IPFilter.Reachable (f.addToWhitelist ip)
  | removeFromWhitelistStep (f : IPFilter) (ip : Address) :
      IPFilter.Reachable f → IPFilter.Reachable (f.removeFromWhitelist ip)
  | addToBlacklistStep (f : IPFilter) (ip : Address) :
      IPFilter.Reachable f → IPFilter.Reachable (f.addToBlacklist ip)
  | removeFromBlacklistStep (f : IPFilter) (ip : Address) :
      IPFilter.Reachable f → IPFilter.Reachable (f.removeFromBlacklist ip)
  | blockTemporarilyStep (f : IPFilter) (ip : Address) (duration now : ℚ) :
      IPFilter.Reachable f → IPFilter.Reachable (f.blockTemporarily ip duration now)
  | unblockStep (f : IPFilter) (ip : Address) :
      IPFilter.Reachable f → IPFilter.Reachable (f.unblock ip)
  | isTempBlockedStep (f : IPFilter) (ip : Address) (now : ℚ) :
      IPFilter.Reachable f → IPFilter.Reachable (f.isTempBlocked ip now).2
  | statsStep (f : IPFilter) (now : ℚ) :
      IPFilter.Reachable f → IPFilter.Reachable (f.statsCleanup now)
  | resetStep (f : IPFilter) :
      IPFilter.Reachable f → IPFilter.Reachable f.reset

/-- Rate limiter states reachable from any fresh construction by any
sequence of its public operations (including the pruning and lazy
block-eviction state changes of the read operations). -/
inductive RateLimiter.Reachable : RateLimiter → Prop where
  | init (maxRequests : ℕ) (timeWindow blockDuration : ℚ) :
      RateLimiter.Reachable (RateLimiter.fresh maxRequests timeWindow blockDuration)
  | isAllowedStep (rl : RateLimiter) (ip : Address) (now : ℚ) :
      RateLimiter.Reachable rl → RateLimiter.Reachable (rl.isAllowed ip now).2.2
  | getRequestCountStep (rl : RateLimiter) (ip : Address) (now : ℚ) :
      RateLimiter.Reachable rl → RateLimiter.Reachable (rl.getRequestCount ip now).2
  | isBlockedStep (rl : RateLimiter) (ip : Address) (now : ℚ) :
      RateLimiter.Reachable rl → RateLimiter.Reachable (rl.isBlocked ip now).2
  | blockIpStep (rl : RateLimiter) (ip : Address) (duration : Option ℚ) (now : ℚ) :
      RateLimiter.Reachable rl → RateLimiter.Reachable (rl.blockIp ip duration now)
  | unblockIpStep (rl : RateLimiter) (ip : Address) :
      RateLimiter.Reachable rl → RateLimiter.Reachable (rl.unblockIp ip)
  | resetStep (rl : RateLimiter) :
      RateLimiter.Reachable rl → RateLimiter.Reachable rl.reset

/-! ## Concrete scenario states used by witnesses and counterexamples -/

/-- A system whose monitor already holds five in-window timestamps for
`7.7.7.7`, so the sixth request trips the HIGH-severity auto-block. -/
def suspSys : MitigationSystem :=
  { autoBlock := true
    rateLimiter := RateLimiter.fresh 10 60 300
    trafficMonitor :=
      { TrafficMonitor.fresh 1 1 100 with
        ipRequests := updFn (fun _ => []) "7.7.7.7" [0, 0, 0, 0, 0] }
    ipFilter := IPFilter.empty }

/-- A system in which `9.9.9.9` has already filled its one-request
window, is then temporarily blocked and finally unblocked: the rate
limiter window survives the unblock. -/
def unblockCtrSys : MitigationSystem :=
  ((((MitigationSystem.fresh true 1 60 300 10 10 3).processRequest "9.9.9.9"
      "/" "GET" 0).2.2.blockIp "9.9.9.9" (some 300) false 0).unblockIp
    "9.9.9.9")

/-- The end-to-end scenario system: default parameters
`maxRequests = 100, timeWindow = 60, blockDuration = 300`, monitor
`(10, 10, 3)`, auto-block enabled, empty filter lists. -/
def endToEndSys : MitigationSystem :=
  MitigationSystem.fresh true 100 60 300 10 10 3

/-- 150 requests from `10.0.0.1` within one second (all at `t = 0`). -/
def endToEndRun : List (Bool × Reason) × MitigationSystem :=
  endToEndSys.runRequests "10.0.0.1" "/" "GET" (List.replicate 150 (0 : ℚ))

/-! ## Helper lemmas -/

set_option allowUnsafeReducibility true in
attribute [semireducible] Rat.add Rat.sub Rat.neg Rat.mul Rat.div Rat.inv

theorem updFn_same {β : Type} (f : Address → β) (k : Address) (v : β) :
    updFn f k v k = v := by
  simp [updFn]

theorem updFn_other {β : Type} (f : Address → β) (k a : Address) (v : β)
    (h : a ≠ k) : updFn f k v a = f a := by
  simp [updFn, h]

theorem updFn_self {β : Type} (f : Address → β) (k : Address) (v : β)
    (h : f k = v) : updFn f k v = f := by
  funext a
  by_cases ha : a = k <;> simp [updFn, ha, h]

theorem updFn_updFn {β : Type} (f : Address → β) (k : Address) (v w : β) :
    updFn (updFn f k v) k w = updFn f k w := by
  funext a
  by_cases ha : a = k <;> simp [updFn, ha]

theorem pruneWindow_length_le (now window : ℚ) (reqs : List ℚ) :
    (pruneWindow now window reqs).length ≤ reqs.length :=
  List.length_filter_le _ _

theorem pruneWindow_eq_self (now window : ℚ) (reqs : List ℚ)
    (h : ∀ t ∈ reqs, now - t < window) :
    pruneWindow now window reqs = reqs := by
  unfold pruneWindow
  apply List.filter_eq_self.mpr
  intro t ht
  exact decide_eq_true (h t ht)

theorem pruneWindow_eq_nil (now window : ℚ) (reqs : List ℚ)
    (h : ∀ t ∈ reqs, window ≤ now - t) :
    pruneWindow now window reqs = [] := by
  unfold pruneWindow
  apply List.filter_eq_nil_iff.mpr
  intro t ht
  simpa using not_lt.mpr (h t ht)

theorem mem_pruneWindow_append_self (now window : ℚ) (reqs : List ℚ)
    (h : 0 < window) : now ∈ pruneWindow now window (reqs ++ [now]) := by
  unfold pruneWindow
  apply List.mem_filter.mpr
  refine ⟨List.mem_append_right _ (List.mem_singleton_self now), ?_⟩
  simpa using h

/-! ## Claim theorems -/

/-- C10: `getRecentAlerts` with `limit = 0` degenerates to the whole
stored alert log, because the Python slice `alerts[-0:]` is `alerts[0:]`. -/
theorem getRecentAlerts_zero_returns_all (tm : TrafficMonitor) :
    tm.getRecentAlerts 0 = tm.alerts := by
  simp [TrafficMonitor.getRecentAlerts]

/-- C4: for every rate strictly above the suspicious threshold `T`, the
computed severity is CRITICAL iff `r > 10T`, HIGH iff `5T < r ≤ 10T`,
MEDIUM iff `2T < r ≤ 5T`, and LOW iff `T < r ≤ 2T`. -/
theorem severity_bands (tm : TrafficMonitor) (r : ℚ)
    (h : tm.suspiciousThreshold < r) :
    (tm.calcSeverity r = .CRITICAL ↔ tm.suspiciousThreshold * 10 < r) ∧
    (tm.calcSeverity r = .HIGH ↔
      tm.suspiciousThreshold * 5 < r ∧ r ≤ tm.suspiciousThreshold * 10) ∧
    (tm.calcSeverity r = .MEDIUM ↔
      tm.suspiciousThreshold * 2 < r ∧ r ≤ tm.suspiciousThreshold * 5) ∧
    (tm.calcSeverity r = .LOW ↔
      tm.suspiciousThreshold < r ∧ r ≤ tm.suspiciousThreshold * 2) := by
  by_cases h1 : tm.suspiciousThreshold * 10 < r
  · have hs : tm.calcSeverity r = .CRITICAL := by
      unfold TrafficMonitor.calcSeverity
      exact if_pos h1
    rw [hs]
    exact ⟨iff_of_true rfl h1,
      iff_of_false (by intro hc; cases hc) (fun hc => absurd h1 (not_lt.mpr hc.2)),
      iff_of_false (by intro hc; cases hc)
        (fun hc => absurd h1 (not_lt.mpr (by linarith [hc.2]))),
      iff_of_false (by intro hc; cases hc)
        (fun hc => absurd h1 (not_lt.mpr (by linarith [hc.2])))⟩
  · by_cases h2 : tm.suspiciousThreshold * 5 < r
    · have hs : tm.calcSeverity r = .HIGH := by
        unfold TrafficMonitor.calcSeverity
        rw [if_neg h1]
        exact if_pos h2
      rw [hs]
      exact ⟨iff_of_false (by intro hc; cases hc) h1,
        iff_of_true rfl ⟨h2, not_lt.mp h1⟩,
        iff_of_false (by intro hc; cases hc) (fun hc => absurd h2 (not_lt.mpr hc.2)),
        iff_of_false (by intro hc; cases hc)
          (fun hc => absurd h2 (not_lt.mpr (by linarith [hc.2])))⟩
    · by_cases h3 : tm.suspiciousThreshold * 2 < r
      · have hs : tm.calcSeverity r = .MEDIUM := by
          unfold TrafficMonitor.calcSeverity
          rw [if_neg h1, if_neg h2]
          exact if_pos h3
        rw [hs]
        exact ⟨iff_of_false (by intro hc; cases hc) h1,
          iff_of_false (by intro hc; cases hc) (fun hc => absurd hc.1 h2),
          iff_of_true rfl ⟨h3, not_lt.mp h2⟩,
          iff_of_false (by intro hc; cases hc) (fun hc => absurd h3 (not_lt.mpr hc.2))⟩
      · have hs : tm.calcSeverity r = .LOW := by
          unfold TrafficMonitor.calcSeverity
          rw [if_neg h1, if_neg h2]
          exact if_neg h3
        rw [hs]
        exact ⟨iff_of_false (by intro hc; cases hc) h1,
          iff_of_false (by intro hc; cases hc) (fun hc => absurd hc.1 h2),
          iff_of_false (by intro hc; cases hc) (fun hc => absurd hc.1 h3),
          iff_of_true rfl ⟨h, not_lt.mp h3⟩⟩

/-- C4 witness: threshold 10, rate 35 classifies as MEDIUM and the bands
agree. -/
theorem severity_bands_witness :
    ((10 : ℚ) < 35) ∧
    ((TrafficMonitor.fresh 10 10 3).calcSeverity 35 = .MEDIUM ↔
      (10 : ℚ) * 2 < 35 ∧ (35 : ℚ) ≤ 10 * 5) :=
  ⟨by norm_num,
    (severity_bands (TrafficMonitor.fresh 10 10 3) 35
      (by norm_num [TrafficMonitor.fresh])).2.2.1⟩

/-- C5: a whitelisted address is always allowed, and the call's only
state effect is recording the request in the traffic monitor — the rate
limiter (windows and block map) and the IP filter are left untouched. -/
theorem whitelist_bypass (s : MitigationSystem) (ip endpoint method : String)
    (now : ℚ) (h : ip ∈ s.ipFilter.whitelist) :
    s.processRequest ip endpoint method now =
      (true, .whitelisted,
        { s with
          trafficMonitor := s.trafficMonitor.recordRequest ip endpoint method now }) := by
  unfold MitigationSystem.processRequest IPFilter.isAllowed
  simp [h]

/-- C5 witness: a concrete whitelisted address at a concrete instant. -/
theorem whitelist_bypass_witness :
    ("1.2.3.4" ∈ ((MitigationSystem.fresh true 100 60 300 10 10 3).whitelistIp
        "1.2.3.4").ipFilter.whitelist) ∧
    (((MitigationSystem.fresh true 100 60 300 10 10 3).whitelistIp
        "1.2.3.4").processRequest "1.2.3.4" "/" "GET" 0 =
      (true, .whitelisted,
        { (MitigationSystem.fresh true 100 60 300 10 10 3).whitelistIp "1.2.3.4" with
          trafficMonitor :=
            ((MitigationSystem.fresh true 100 60 300 10 10 3).whitelistIp
                "1.2.3.4").trafficMonitor.recordRequest "1.2.3.4" "/" "GET" 0 })) := by
  refine ⟨?_, whitelist_bypass _ _ _ _ _ ?_⟩ <;>
    simp [MitigationSystem.whitelistIp, MitigationSystem.fresh, IPFilter.empty,
      IPFilter.addToWhitelist]

theorem IPFilter.filter_reason_ne_susp (f : IPFilter) (ip : Address)
    (now : ℚ) : (f.isAllowed ip now).2.1 ≠ .suspiciousActivity := by
  simp only [IPFilter.isAllowed]
  repeat' split
  all_goals simp

theorem RateLimiter.isAllowedCore_reason_ne_susp (rl : RateLimiter)
    (ip : Address) (now : ℚ) :
    ((rl.isAllowedCore ip now).2.1).getD .rateLimitExceeded ≠
      .suspiciousActivity := by
  simp only [RateLimiter.isAllowedCore]
  repeat' split
  all_goals simp

theorem RateLimiter.isAllowed_reason_ne_susp (rl : RateLimiter)
    (ip : Address) (now : ℚ) :
    ((rl.isAllowed ip now).2.1).getD .rateLimitExceeded ≠
      .suspiciousActivity := by
  simp only [RateLimiter.isAllowed]
  split
  · split
    · simp
    · exact RateLimiter.isAllowedCore_reason_ne_susp _ ip now
  · exact RateLimiter.isAllowedCore_reason_ne_susp _ ip now

theorem RateLimiter.isAllowed_true_requests (rl : RateLimiter)
    (ip : Address) (now : ℚ) (h : (rl.isAllowed ip now).1 = true) :
    (rl.isAllowed ip now).2.2.requests ip =
      pruneWindow now rl.timeWindow (rl.requests ip) ++ [now] := by
  rcases hb : rl.blockedIps ip with _ | expiry <;>
    simp only [RateLimiter.isAllowed, RateLimiter.isAllowedCore, hb] at h ⊢ <;>
    split_ifs at h ⊢ <;> simp_all [updFn_same]

theorem TrafficMonitor.recordRequest_ipRequests (tm : TrafficMonitor)
    (ip : Address) (endpoint method : String) (now : ℚ) :
    (tm.recordRequest ip endpoint method now).ipRequests ip =
      pruneWindow now tm.detectionWindow (tm.ipRequests ip) ++ [now] := by
  simp only [TrafficMonitor.recordRequest, TrafficMonitor.triggerAlert]
  split_ifs <;> simp [updFn_same]

theorem TrafficMonitor.recordRequest_detectionWindow (tm : TrafficMonitor)
    (ip : Address) (endpoint method : String) (now : ℚ) :
    (tm.recordRequest ip endpoint method now).detectionWindow =
      tm.detectionWindow := by
  simp only [TrafficMonitor.recordRequest, TrafficMonitor.triggerAlert]
  split_ifs <;> rfl

theorem TrafficMonitor.isSuspicious_ipRequests (tm : TrafficMonitor)
    (ip : Address) (now : ℚ) :
    (tm.isSuspicious ip now).2.ipRequests ip =
      pruneWindow now tm.detectionWindow (tm.ipRequests ip) := by
  simp only [TrafficMonitor.isSuspicious]
  split_ifs <;> simp [updFn_same]

/-- C9: a denial with the suspicious-activity reason happens only after
the request's timestamp has been appended to both the rate limiter's
window and the traffic monitor's window, and the returned state keeps
both entries — the denied request still consumes rate-limit capacity. -/
theorem suspicious_denial_keeps_state (s : MitigationSystem)
    (ip endpoint method : String) (now : ℚ)
    (hdw : 0 < s.trafficMonitor.detectionWindow)
    (h : (s.processRequest ip endpoint method now).2.1 = .suspiciousActivity) :
    (s.processRequest ip endpoint method now).1 = false ∧
    now ∈ (s.processRequest ip endpoint method now).2.2.rateLimiter.requests ip ∧
    now ∈ (s.processRequest ip endpoint method now).2.2.trafficMonitor.ipRequests ip := by
  by_cases h1 : (s.ipFilter.isAllowed ip now).1 = true
  case neg =>
    exfalso
    simp only [MitigationSystem.processRequest, h1] at h
    simp at h
    exact IPFilter.filter_reason_ne_susp s.ipFilter ip now h
  by_cases h2 : ip ∈ (s.ipFilter.isAllowed ip now).2.2.whitelist
  case pos =>
    exfalso
    simp only [MitigationSystem.processRequest, h1, h2] at h
    simp at h
  by_cases h3 : (s.rateLimiter.isAllowed ip now).1 = false
  case pos =>
    exfalso
    simp only [MitigationSystem.processRequest, h1, h2, h3] at h
    simp at h
    exact RateLimiter.isAllowed_reason_ne_susp s.rateLimiter ip now h
  have h3t : (s.rateLimiter.isAllowed ip now).1 = true := by
    simpa using h3
  rcases hsusp : ((s.trafficMonitor.recordRequest ip endpoint method now).isSuspicious ip now).1
    with ⟨sb, sd⟩
  match sb, sd with
  | false, _ =>
      exfalso
      simp only [MitigationSystem.processRequest, h1, h2, h3, hsusp] at h
      simp at h
  | true, none =>
      exfalso
      simp only [MitigationSystem.processRequest, h1, h2, h3, hsusp] at h
      simp at h
  | true, some d =>
      by_cases h4 : s.autoBlock = true ∧
          (d.severity = Severity.HIGH ∨ d.severity = Severity.CRITICAL)
      case neg =>
        exfalso
        simp only [MitigationSystem.processRequest, h1, h2, h3, hsusp, h4] at h
        simp at h
      have hfin : s.processRequest ip endpoint method now =
          (false, .suspiciousActivity,
            { autoBlock := s.autoBlock
              rateLimiter := (s.rateLimiter.isAllowed ip now).2.2
              trafficMonitor :=
                ((s.trafficMonitor.recordRequest ip endpoint method
                  now).isSuspicious ip now).2
              ipFilter :=
                (s.ipFilter.isAllowed ip now).2.2.blockTemporarily ip 600 now }) := by
        simp only [MitigationSystem.processRequest]
        simp [h1, h2, h3, hsusp, h4]
      rw [hfin]
      refine ⟨rfl, ?_, ?_⟩
      · rw [show (false, Reason.suspiciousActivity,
            ({ autoBlock := s.autoBlock
               rateLimiter := (s.rateLimiter.isAllowed ip now).2.2
               trafficMonitor :=
                 ((s.trafficMonitor.recordRequest ip endpoint method
                   now).isSuspicious ip now).2
               ipFilter :=
                 (s.ipFilter.isAllowed ip now).2.2.blockTemporarily ip 600 now } :
              MitigationSystem)).2.2.rateLimiter =
            (s.rateLimiter.isAllowed ip now).2.2 from rfl,
          RateLimiter.isAllowed_true_requests s.rateLimiter ip now h3t]
        exact List.mem_append_right _ (List.mem_singleton_self now)
      · rw [show (false, Reason.suspiciousActivity,
            ({ autoBlock := s.autoBlock
               rateLimiter := (s.rateLimiter.isAllowed ip now).2.2
               trafficMonitor :=
                 ((s.trafficMonitor.recordRequest ip endpoint method
                   now).isSuspicious ip now).2
               ipFilter :=
                 (s.ipFilter.isAllowed ip now).2.2.blockTemporarily ip 600 now } :
              MitigationSystem)).2.2.trafficMonitor =
            ((s.trafficMonitor.recordRequest ip endpoint method
              now).isSuspicious ip now).2 from rfl,
          TrafficMonitor.isSuspicious_ipRequests,
          TrafficMonitor.recordRequest_ipRequests,
          TrafficMonitor.recordRequest_detectionWindow]
        exact mem_pruneWindow_append_self now _ _ hdw

/-- C9 witness: at `suspSys` the sixth same-instant request is denied as
suspicious while its timestamp stays recorded in both windows. -/
theorem suspicious_denial_keeps_state_witness :
    (0 : ℚ) < suspSys.trafficMonitor.detectionWindow ∧
    (suspSys.processRequest "7.7.7.7" "/" "GET" 0).2.1 = .suspiciousActivity ∧
    ((suspSys.processRequest "7.7.7.7" "/" "GET" 0).1 = false ∧
      (0 : ℚ) ∈ (suspSys.processRequest "7.7.7.7" "/" "GET"
        0).2.2.rateLimiter.requests "7.7.7.7" ∧
      (0 : ℚ) ∈ (suspSys.processRequest "7.7.7.7" "/" "GET"
        0).2.2.trafficMonitor.ipRequests "7.7.7.7") :=
  ⟨by decide, by decide,
    suspicious_denial_keeps_state suspSys "7.7.7.7" "/" "GET" 0
      (by decide) (by decide)⟩

theorem IPFilter.isAllowed_whitelist (f : IPFilter) (ip : Address) (now : ℚ) :
    (f.isAllowed ip now).2.2.whitelist = f.whitelist := by
  simp only [IPFilter.isAllowed]
  repeat' split
  all_goals rfl

theorem IPFilter.isAllowed_blacklist (f : IPFilter) (ip : Address) (now : ℚ) :
    (f.isAllowed ip now).2.2.blacklist = f.blacklist := by
  simp only [IPFilter.isAllowed]
  repeat' split
  all_goals rfl

/-- C7: in every registry state reachable by any sequence of operations,
no address is in both the whitelist and the blacklist; moreover adding to
the whitelist erases the address from the blacklist and from the
temp-block map, and adding to the blacklist does the converse. -/
theorem whitelist_blacklist_exclusive (f : IPFilter) (hr : f.Reachable) :
    Disjoint f.whitelist f.blacklist ∧
    (∀ ip, (f.addToWhitelist ip).blacklist = f.blacklist.erase ip ∧
      (f.addToWhitelist ip).tempBlocks ip = none ∧
      (f.addToBlacklist ip).whitelist = f.whitelist.erase ip ∧
      (f.addToBlacklist ip).tempBlocks ip = none) := by
  refine ⟨?_, fun ip => ⟨rfl, updFn_same _ _ _, rfl, updFn_same _ _ _⟩⟩
  induction hr with
  | init => simp [IPFilter.empty]
  | isAllowedStep f ip now _ ih =>
      rw [IPFilter.isAllowed_whitelist, IPFilter.isAllowed_blacklist]
      exact ih
  | addToWhitelistStep f ip _ ih =>
      simp only [IPFilter.addToWhitelist, Finset.disjoint_left,
        Finset.mem_insert, Finset.mem_erase] at *
      rintro a (rfl | ha) ⟨hne, hbl⟩
      · exact hne rfl
      · exact ih ha hbl
  | removeFromWhitelistStep f ip _ ih =>
      simp only [IPFilter.removeFromWhitelist, Finset.disjoint_left,
        Finset.mem_erase] at *
      exact fun a ha hb => ih ha.2 hb
  | addToBlacklistStep f ip _ ih =>
      simp only [IPFilter.addToBlacklist, Finset.disjoint_left,
        Finset.mem_insert, Finset.mem_erase] at *
      rintro a ⟨hne, hwl⟩ (rfl | hb)
      · exact hne rfl
      · exact ih hwl hb
  | removeFromBlacklistStep f ip _ ih =>
      simp only [IPFilter.removeFromBlacklist, Finset.disjoint_left,
        Finset.mem_erase] at *
      exact fun a ha hb => ih ha hb.2
  | blockTemporarilyStep f ip duration now _ ih =>
      simp only [IPFilter.blockTemporarily]
      split <;> exact ih
  | unblockStep f ip _ ih => exact ih
  | isTempBlockedStep f ip now _ ih =>
      simp only [IPFilter.isTempBlocked]
      repeat' split
      all_goals exact ih
  | statsStep f now _ ih => exact ih
  | resetStep f _ ih => exact ih

/-- C7 witness: the invariant and the mutual-erasure effects at the
default-constructed registry. -/
theorem whitelist_blacklist_exclusive_witness :
    Disjoint IPFilter.empty.whitelist IPFilter.empty.blacklist ∧
    ((IPFilter.empty.addToWhitelist "w").blacklist =
        IPFilter.empty.blacklist.erase "w" ∧
      (IPFilter.empty.addToWhitelist "w").tempBlocks "w" = none ∧
      (IPFilter.empty.addToBlacklist "w").whitelist =
        IPFilter.empty.whitelist.erase "w" ∧
      (IPFilter.empty.addToBlacklist "w").tempBlocks "w" = none) :=
  ⟨(whitelist_blacklist_exclusive IPFilter.empty IPFilter.Reachable.init).1,
    (whitelist_blacklist_exclusive IPFilter.empty IPFilter.Reachable.init).2 "w"⟩

theorem RateLimiter.isAllowedCore_window_le (rl : RateLimiter) (ip : Address)
    (now : ℚ) (h : ∀ a, (rl.requests a).length ≤ rl.maxRequests) :
    ∀ a, ((rl.isAllowedCore ip now).2.2.requests a).length ≤
      (rl.isAllowedCore ip now).2.2.maxRequests := by
  intro a
  simp only [RateLimiter.isAllowedCore]
  split_ifs with hmax
  · by_cases ha : a = ip
    · subst ha
      simp only [updFn_same]
      exact le_trans (pruneWindow_length_le _ _ _) (h a)
    · simp only [updFn_other _ _ _ _ ha]
      exact h a
  · by_cases ha : a = ip
    · subst ha
      simp only [updFn_same, List.length_append, List.length_singleton]
      omega
    · simp only [updFn_other _ _ _ _ ha]
      exact h a

/-- C8: in every reachable rate limiter state each address's window holds
at most `maxRequests` timestamps; a request that finds the pruned window
at `maxRequests` is denied, block-listed, and not recorded; and an
allowed request implies the pruned window was strictly below the limit,
with exactly `now` appended. -/
theorem window_size_invariant (rl : RateLimiter) (hr : rl.Reachable) :
    (∀ a, (rl.requests a).length ≤ rl.maxRequests) ∧
    (∀ ip now, rl.blockedIps ip = none →
      rl.maxRequests ≤ (pruneWindow now rl.timeWindow (rl.requests ip)).length →
      rl.isAllowed ip now = (false, some .rateLimitExceeded,
        { rl with
          requests := updFn rl.requests ip
            (pruneWindow now rl.timeWindow (rl.requests ip))
          blockedIps := updFn rl.blockedIps ip
            (some (now + rl.blockDuration)) })) ∧
    (∀ ip now, (rl.isAllowed ip now).1 = true →
      (pruneWindow now rl.timeWindow (rl.requests ip)).length < rl.maxRequests ∧
      (rl.isAllowed ip now).2.2.requests ip =
        pruneWindow now rl.timeWindow (rl.requests ip) ++ [now]) := by
  refine ⟨?_, ?_, ?_⟩
  · induction hr with
    | init maxRequests timeWindow blockDuration =>
        intro a
        simp [RateLimiter.fresh]
    | isAllowedStep rl ip now _ ih =>
        rcases hb : rl.blockedIps ip with _ | expiry <;>
          simp only [RateLimiter.isAllowed, hb]
        · exact RateLimiter.isAllowedCore_window_le rl ip now ih
        · split_ifs with hlt
          · exact ih
          · exact RateLimiter.isAllowedCore_window_le _ ip now ih
    | getRequestCountStep rl ip now _ ih =>
        intro a
        simp only [RateLimiter.getRequestCount]
        by_cases ha : a = ip
        · subst ha
          simp only [updFn_same]
          exact le_trans (pruneWindow_length_le _ _ _) (ih a)
        · simp only [updFn_other _ _ _ _ ha]
          exact ih a
    | isBlockedStep rl ip now _ ih =>
        intro a
        simp only [RateLimiter.isBlocked]
        repeat' split
        all_goals exact ih a
    | blockIpStep rl ip duration now _ ih => exact ih
    | unblockIpStep rl ip _ ih => exact ih
    | resetStep rl _ ih =>
        intro a
        simp [RateLimiter.reset]
  · intro ip now hb hmax
    simp only [RateLimiter.isAllowed, hb, RateLimiter.isAllowedCore,
      if_pos hmax]
  · intro ip now hallow
    refine ⟨?_, RateLimiter.isAllowed_true_requests rl ip now hallow⟩
    rcases hb : rl.blockedIps ip with _ | expiry <;>
      simp only [RateLimiter.isAllowed, hb, RateLimiter.isAllowedCore] at hallow <;>
      split_ifs at hallow with hmax <;>
      omega

/-- C8 witness: the invariant and both behavioral conjuncts instantiated
at a fresh limiter with capacity 0, whose very first request is rejected
unrecorded. -/
theorem window_size_invariant_witness :
    (((RateLimiter.fresh 0 60 300).requests "a").length ≤
      (RateLimiter.fresh 0 60 300).maxRequests) ∧
    ((RateLimiter.fresh 0 60 300).isAllowed "a" 5 =
      (false, some .rateLimitExceeded,
        { RateLimiter.fresh 0 60 300 with
          requests := updFn (RateLimiter.fresh 0 60 300).requests "a"
            (pruneWindow 5 60 ((RateLimiter.fresh 0 60 300).requests "a"))
          blockedIps := updFn (RateLimiter.fresh 0 60 300).blockedIps "a"
            (some (5 + 300)) })) :=
  ⟨(window_size_invariant _ (RateLimiter.Reachable.init 0 60 300)).1 "a",
    (window_size_invariant _ (RateLimiter.Reachable.init 0 60 300)).2.1 "a" 5
      rfl (by decide)⟩

theorem TrafficMonitor.triggerAlert_eq (tm : TrafficMonitor) (ip : Address)
    (rate : ℚ) (endpoint method : String) (now : ℚ) :
    tm.triggerAlert ip rate endpoint method now =
      { tm with alerts := alertPush tm.alerts (tm.mkAlert ip rate endpoint method now) } :=
  rfl

theorem TrafficMonitor.fireAll_alerts (evs : List AlertEvent) :
    ∀ tm : TrafficMonitor,
      (tm.fireAll evs).alerts =
        (evs.map (fun e => tm.mkAlert e.ip e.rate e.endpoint e.method e.now)).foldl
          alertPush tm.alerts := by
  induction evs with
  | nil => intro tm; rfl
  | cons e es ih =>
      intro tm
      simp only [TrafficMonitor.fireAll, List.map_cons, List.foldl_cons]
      rw [ih]
      rfl

theorem foldl_alertPush_drop (as : List Alert) :
    ∀ l : List Alert, l.length ≤ 100 →
      as.foldl alertPush l = (l ++ as).drop ((l ++ as).length - 100) := by
  induction as with
  | nil =>
      intro l hl
      simp only [List.foldl_nil, List.append_nil]
      rw [Nat.sub_eq_zero_of_le hl, List.drop_zero]
  | cons a as ih =>
      intro l hl
      simp only [List.foldl_cons]
      by_cases hcase : l.length ≤ 99
      · have hpush : alertPush l a = l ++ [a] := by
          simp only [alertPush]
          rw [if_neg]
          simp only [List.length_append, List.length_singleton]
          omega
        rw [hpush, ih (l ++ [a]) (by simp; omega)]
        simp [List.append_assoc]
      · have hlen : l.length = 100 := by omega
        have hne : l ≠ [] := by
          intro hnil
          rw [hnil] at hlen
          simp at hlen
        have hpush : alertPush l a = (l ++ [a]).tail := by
          simp only [alertPush]
          rw [if_pos]
          simp only [List.length_append, List.length_singleton]
          omega
        have htail : (l ++ [a]).tail = l.tail ++ [a] :=
          List.tail_append_singleton_of_ne_nil hne
        have hlt : (l.tail ++ [a]).length ≤ 100 := by
          simp only [List.length_append, List.length_singleton, List.length_tail]
          omega
        rw [hpush, htail, ih (l.tail ++ [a]) hlt]
        have e1 : l.tail ++ [a] ++ as = (l ++ a :: as).tail := by
          rw [List.tail_append_of_ne_nil hne]
          simp
        rw [e1]
        have hlen3 : (l ++ a :: as).length = 101 + as.length := by
          simp [hlen]
          omega
        have hlen4 : (l ++ a :: as).tail.length = 100 + as.length := by
          rw [List.length_tail, hlen3]
          omega
        rw [hlen3, hlen4]
        have harith : (101 : ℕ) + as.length - 100 = 1 + (100 + as.length - 100) := by
          omega
        rw [harith, ← List.drop_drop, List.drop_one]

/-- C6: starting from an empty alert log, after any sequence of raised
alerts the log holds the most recent at-most-100 alerts in chronological
order (FIFO eviction of the oldest), and `getRecentAlerts limit` for any
`limit ≥ 100` returns exactly that log. -/
theorem alert_log_bound (tm : TrafficMonitor) (evs : List AlertEvent)
    (h : tm.alerts = []) :
    (tm.fireAll evs).alerts =
      (evs.map (fun e => tm.mkAlert e.ip e.rate e.endpoint e.method e.now)).drop
        (evs.length - 100) ∧
    (tm.fireAll evs).alerts.length ≤ 100 ∧
    (∀ limit, 100 ≤ limit →
      (tm.fireAll evs).getRecentAlerts limit = (tm.fireAll evs).alerts) := by
  have hdrop := foldl_alertPush_drop
    (evs.map (fun e => tm.mkAlert e.ip e.rate e.endpoint e.method e.now)) [] (by simp)
  have halerts : (tm.fireAll evs).alerts =
      (evs.map (fun e => tm.mkAlert e.ip e.rate e.endpoint e.method e.now)).drop
        (evs.length - 100) := by
    rw [TrafficMonitor.fireAll_alerts, h, hdrop]
    simp
  have hle : (tm.fireAll evs).alerts.length ≤ 100 := by
    rw [halerts, List.length_drop, List.length_map]
    omega
  refine ⟨halerts, hle, fun limit hlim => ?_⟩
  simp only [TrafficMonitor.getRecentAlerts]
  rw [if_neg (by omega), Nat.sub_eq_zero_of_le (by omega), List.drop_zero]

/-- C6 witness: 102 identical alert-worthy events on a fresh monitor
leave a 100-entry log that `getRecentAlerts 1000` returns whole. -/
theorem alert_log_bound_witness :
    ((TrafficMonitor.fresh 10 10 3).fireAll
      (List.replicate 102 ⟨"a", 25, "/", "GET", 0⟩)).alerts.length ≤ 100 ∧
    ((TrafficMonitor.fresh 10 10 3).fireAll
        (List.replicate 102 ⟨"a", 25, "/", "GET", 0⟩)).getRecentAlerts 1000 =
      ((TrafficMonitor.fresh 10 10 3).fireAll
        (List.replicate 102 ⟨"a", 25, "/", "GET", 0⟩)).alerts :=
  ⟨(alert_log_bound (TrafficMonitor.fresh 10 10 3)
      (List.replicate 102 ⟨"a", 25, "/", "GET", 0⟩) rfl).2.1,
    (alert_log_bound (TrafficMonitor.fresh 10 10 3)
      (List.replicate 102 ⟨"a", 25, "/", "GET", 0⟩) rfl).2.2 1000 (by omega)⟩

theorem RateLimiter.run_append (ts1 ts2 : List ℚ) :
    ∀ (rl : RateLimiter) (ip : Address),
      rl.run ip (ts1 ++ ts2) =
        ((rl.run ip ts1).1 ++ ((rl.run ip ts1).2.run ip ts2).1,
          ((rl.run ip ts1).2.run ip ts2).2) := by
  induction ts1 with
  | nil => intro rl ip; rfl
  | cons t ts ih =>
      intro rl ip
      simp only [List.cons_append, RateLimiter.run, ih, List.append_assoc]
      simp [ih]

theorem RateLimiter.run_fill (ts : List ℚ) :
    ∀ (rl : RateLimiter) (ip : Address) (done : List ℚ),
      rl.blockedIps ip = none →
      rl.requests ip = done →
      done.length + ts.length ≤ rl.maxRequests →
      (∀ x ∈ done ++ ts, ∀ y ∈ done ++ ts, x - y < rl.timeWindow) →
      rl.run ip ts =
        (ts.map (fun _ => (true, (none : Option Reason))),
          { rl with requests := updFn rl.requests ip (done ++ ts) }) := by
  induction ts with
  | nil =>
      intro rl ip done hb hreq hlen hspan
      simp only [RateLimiter.run, List.map_nil, List.append_nil]
      rw [updFn_self _ _ _ hreq]
  | cons t ts ih =>
      intro rl ip done hb hreq hlen hspan
      have hmemt : t ∈ done ++ t :: ts :=
        List.mem_append_right _ (List.mem_cons_self t ts)
      have hprune : pruneWindow t rl.timeWindow (rl.requests ip) = done := by
        rw [hreq]
        apply pruneWindow_eq_self
        intro x hx
        exact hspan t hmemt x (List.mem_append_left _ hx)
      have hlt : ¬rl.maxRequests ≤ done.length := by
        simp only [List.length_cons] at hlen
        omega
      have hstep : rl.isAllowed ip t =
          (true, none, { rl with requests := updFn rl.requests ip (done ++ [t]) }) := by
        simp only [RateLimiter.isAllowed, hb, RateLimiter.isAllowedCore, hprune,
          if_neg hlt]
      have hassoc : (done ++ [t]) ++ ts = done ++ t :: ts := by
        rw [List.append_assoc, List.singleton_append]
      have hrec := ih { rl with requests := updFn rl.requests ip (done ++ [t]) }
        ip (done ++ [t]) hb (updFn_same _ _ _)
        (by simp only [List.length_append, List.length_singleton,
              List.length_cons, List.length_nil] at hlen ⊢; omega)
        (by rw [hassoc]; exact hspan)
      simp only [RateLimiter.run, hstep, hrec, updFn_updFn, hassoc, List.map_cons]

theorem RateLimiter.run_fill_fresh (M : ℕ) (W D : ℚ) (ip : Address)
    (us : List ℚ) (hlen : us.length ≤ M)
    (hspan : ∀ x ∈ us, ∀ y ∈ us, x - y < W) :
    (RateLimiter.fresh M W D).run ip us =
      (us.map (fun _ => (true, (none : Option Reason))),
        { maxRequests := M, timeWindow := W, blockDuration := D,
          requests := updFn (fun _ => []) ip us,
          blockedIps := fun _ => none }) := by
  rw [RateLimiter.run_fill us (RateLimiter.fresh M W D) ip [] rfl rfl
    (by simpa [RateLimiter.fresh] using hlen)
    (by simpa using hspan)]
  rfl

/-- C2 (amended): for a fresh limiter with `0 < M` and `W ≤ D`, all of
the first `M` calls within a `W`-span are allowed and recorded, the
`(M+1)`th is denied with a fresh block expiring at `now + D` and its
timestamp not added, and any call at or after the block's expiry is
allowed again. -/
theorem rate_limit_threshold (M : ℕ) (W D : ℚ) (ip : Address)
    (us : List ℚ) (tM : ℚ) (hM : 0 < M) (hWD : W ≤ D) (hlen : us.length = M)
    (hspan : ∀ x ∈ us ++ [tM], ∀ y ∈ us ++ [tM], x - y < W)
    (hlast : ∀ x ∈ us, x ≤ tM) :
    ((RateLimiter.fresh M W D).run ip (us ++ [tM])).1 =
      us.map (fun _ => (true, (none : Option Reason))) ++
        [(false, some .rateLimitExceeded)] ∧
    ((RateLimiter.fresh M W D).run ip (us ++ [tM])).2.requests ip = us ∧
    ((RateLimiter.fresh M W D).run ip (us ++ [tM])).2.blockedIps ip =
      some (tM + D) ∧
    (∀ t, tM + D ≤ t →
      ((((RateLimiter.fresh M W D).run ip (us ++ [tM])).2.isAllowed ip t).1 =
        true)) := by
  have hfill := RateLimiter.run_fill_fresh M W D ip us (le_of_eq hlen)
    (fun x hx y hy => hspan x (List.mem_append_left _ hx) y
      (List.mem_append_left _ hy))
  have hprune : pruneWindow tM W us = us := by
    apply pruneWindow_eq_self
    intro x hx
    exact hspan tM (List.mem_append_right _ (List.mem_singleton_self tM)) x
      (List.mem_append_left _ hx)
  have hmax : M ≤ us.length := le_of_eq hlen.symm
  have hstep : ({ maxRequests := M, timeWindow := W, blockDuration := D,
                  requests := updFn (fun _ => []) ip us,
                  blockedIps := fun _ => none } : RateLimiter).isAllowed ip tM =
      (false, some .rateLimitExceeded,
        { maxRequests := M, timeWindow := W, blockDuration := D,
          requests := updFn (updFn (fun _ => []) ip us) ip us,
          blockedIps := updFn (fun _ => none) ip (some (tM + D)) }) := by
    simp only [RateLimiter.isAllowed, RateLimiter.isAllowedCore, updFn_same,
      hprune]
    rw [if_pos hmax]
  have hrun : (RateLimiter.fresh M W D).run ip (us ++ [tM]) =
      ((us.map (fun _ => (true, (none : Option Reason)))) ++
        [(false, some .rateLimitExceeded)],
        { maxRequests := M, timeWindow := W, blockDuration := D,
          requests := updFn (updFn (fun _ => []) ip us) ip us,
          blockedIps := updFn (fun _ => none) ip (some (tM + D)) }) := by
    rw [RateLimiter.run_append, hfill]
    simp only [RateLimiter.run, hstep]
  rw [hrun]
  refine ⟨rfl, by simp only [updFn_same], by simp only [updFn_same],
    fun t ht => ?_⟩
  have hblock : ¬t < tM + D := not_lt.mpr ht
  simp only [RateLimiter.isAllowed, updFn_same, if_neg hblock,
    RateLimiter.isAllowedCore, updFn_updFn]
  have hnil : pruneWindow t W us = [] := by
    apply pruneWindow_eq_nil
    intro x hx
    have hx1 : x ≤ tM := hlast x hx
    linarith
  rw [hnil]
  rw [if_neg (by simp only [List.length_nil]; omega)]

/-- C2 counterexample to the unamended claim: with `maxRequests = 1`,
`timeWindow = 10`, `blockDuration = 1`, a call at `t = 1` — after the
block set at `t = 0` has fully elapsed — is still denied, because the
stale window entry at `t = 0` is still inside the 10-second lookback and
re-triggers the limit. -/
theorem rate_limit_threshold_counterexample :
    ((RateLimiter.fresh 1 10 1).run "a" [0, 0, 1]).1 =
      [(true, none), (false, some .rateLimitExceeded),
        (false, some .rateLimitExceeded)] := by
  decide

/-- C2 witness: `M = 1, W = 10, D = 10`; the first call is allowed, the
second denied, and a call at the block expiry `t = 10` is allowed. -/
theorem rate_limit_threshold_witness :
    (0 < 1) ∧ ((10 : ℚ) ≤ 10) ∧
    ((RateLimiter.fresh 1 10 10).run "a" ([0] ++ [0])).1 =
      [0].map (fun _ => (true, (none : Option Reason))) ++
        [(false, some .rateLimitExceeded)] ∧
    ((((RateLimiter.fresh 1 10 10).run "a" ([0] ++ [0])).2.isAllowed "a"
      10).1 = true) :=
  ⟨by decide, by decide,
    (rate_limit_threshold 1 10 10 "a" [0] 0 (by decide) (by decide) rfl
      (by decide) (by decide)).1,
    (rate_limit_threshold 1 10 10 "a" [0] 0 (by decide) (by decide) rfl
      (by decide) (by decide)).2.2.2 10 (by decide)⟩

theorem IPFilter.blockTemporarily_whitelist (f : IPFilter) (ip : Address)
    (duration now : ℚ) :
    (f.blockTemporarily ip duration now).whitelist = f.whitelist := by
  simp only [IPFilter.blockTemporarily]
  split <;> rfl

theorem IPFilter.blockTemporarily_blacklist (f : IPFilter) (ip : Address)
    (duration now : ℚ) :
    (f.blockTemporarily ip duration now).blacklist = f.blacklist := by
  simp only [IPFilter.blockTemporarily]
  split <;> rfl

theorem TrafficMonitor.isSuspicious_ipViolations (tm : TrafficMonitor)
    (ip : Address) (now : ℚ) :
    (tm.isSuspicious ip now).2.ipViolations = tm.ipViolations := by
  simp only [TrafficMonitor.isSuspicious]
  split_ifs <;> rfl

theorem MitigationSystem.processRequest_quiet (s : MitigationSystem)
    (ip endpoint method : String) (t : ℚ)
    (hwl : ip ∉ s.ipFilter.whitelist) (hbl : ip ∉ s.ipFilter.blacklist)
    (htb : s.ipFilter.tempBlocks ip = none)
    (hrb : s.rateLimiter.blockedIps ip = none)
    (hrq : s.rateLimiter.requests ip = [])
    (htq : s.trafficMonitor.ipRequests ip = [])
    (hrate : (1 : ℚ) / s.trafficMonitor.detectionWindow ≤
      s.trafficMonitor.suspiciousThreshold)
    (hmax : 0 < s.rateLimiter.maxRequests) :
    (s.processRequest ip endpoint method t).1 = true ∧
    (s.processRequest ip endpoint method t).2.2.trafficMonitor.ipViolations ip =
      s.trafficMonitor.ipViolations ip := by
  have h_ia : s.ipFilter.isAllowed ip t = (true, .allowedOk, s.ipFilter) := by
    simp only [IPFilter.isAllowed, if_neg hwl, if_neg hbl, htb]
  have h_rl : s.rateLimiter.isAllowed ip t =
      (true, none,
        { s.rateLimiter with
          requests := updFn s.rateLimiter.requests ip [t] }) := by
    simp only [RateLimiter.isAllowed, hrb, RateLimiter.isAllowedCore, hrq]
    rw [if_neg (by simp only [pruneWindow, List.filter_nil, List.length_nil]; omega)]
    simp [pruneWindow]
  have h_rec : s.trafficMonitor.recordRequest ip endpoint method t =
      { s.trafficMonitor with
        ipRequests := updFn s.trafficMonitor.ipRequests ip [t] } := by
    simp only [TrafficMonitor.recordRequest, htq, pruneWindow, List.filter_nil,
      List.nil_append, List.length_singleton, Nat.cast_one]
    rw [if_neg (not_lt.mpr hrate)]
  have h_susp1 : (({ s.trafficMonitor with
      ipRequests := updFn s.trafficMonitor.ipRequests ip [t] } :
        TrafficMonitor).isSuspicious ip t).1 =
      ((false : Bool), (none : Option SuspiciousDetails)) := by
    by_cases h0 : (0 : ℚ) < s.trafficMonitor.detectionWindow
    · have hp : pruneWindow t s.trafficMonitor.detectionWindow [t] = [t] := by
        apply pruneWindow_eq_self
        intro x hx
        rw [List.mem_singleton] at hx
        subst hx
        rw [sub_self]
        exact h0
      simp only [TrafficMonitor.isSuspicious, updFn_same, hp]
      rw [if_neg (by simp), if_neg (by
        simp only [List.length_singleton, Nat.cast_one]
        exact not_lt.mpr hrate)]
    · have hp : pruneWindow t s.trafficMonitor.detectionWindow [t] = [] := by
        apply pruneWindow_eq_nil
        intro x hx
        rw [List.mem_singleton] at hx
        subst hx
        rw [sub_self]
        exact le_of_not_lt h0
      simp only [TrafficMonitor.isSuspicious, updFn_same, hp]
      simp
  constructor
  · simp only [MitigationSystem.processRequest, h_ia, h_rl, h_rec,
      Bool.not_true, Bool.false_eq_true, if_false, if_neg hwl, h_susp1]
  · simp only [MitigationSystem.processRequest, h_ia, h_rl, h_rec,
      Bool.not_true, Bool.false_eq_true, if_false, if_neg hwl, h_susp1,
      TrafficMonitor.isSuspicious_ipViolations]

/-- C3 (amended): for an address with no in-window request history, not
whitelisted and not blacklisted, and whose single post-unblock request
cannot itself look suspicious (`1/detectionWindow ≤ threshold`,
`maxRequests > 0`), temporarily blocking it and then calling
`unblockIp` clears the temp block, the rate limiter block and the
monitor violations, and the next `processRequest` is allowed with the
violation counter still reading zero. -/
theorem unblock_restores_access (s : MitigationSystem)
    (ip endpoint method : String) (d now t : ℚ)
    (hrl : s.rateLimiter.requests ip = [])
    (htm : s.trafficMonitor.ipRequests ip = [])
    (hbl : ip ∉ s.ipFilter.blacklist)
    (hwl : ip ∉ s.ipFilter.whitelist)
    (hrate : (1 : ℚ) / s.trafficMonitor.detectionWindow ≤
      s.trafficMonitor.suspiciousThreshold)
    (hmax : 0 < s.rateLimiter.maxRequests) :
    ((s.blockIp ip (some d) false now).unblockIp ip).ipFilter.tempBlocks ip =
      none ∧
    ((s.blockIp ip (some d) false now).unblockIp ip).rateLimiter.blockedIps ip =
      none ∧
    ((s.blockIp ip (some d) false now).unblockIp
      ip).trafficMonitor.ipViolations ip = 0 ∧
    (((s.blockIp ip (some d) false now).unblockIp ip).processRequest ip
      endpoint method t).1 = true ∧
    (((s.blockIp ip (some d) false now).unblockIp ip).processRequest ip
      endpoint method t).2.2.trafficMonitor.ipViolations ip = 0 := by
  have hfwl : ((s.blockIp ip (some d) false now).unblockIp
      ip).ipFilter.whitelist = s.ipFilter.whitelist := by
    show ((s.ipFilter.blockTemporarily ip _ now).unblock ip).whitelist = _
    simp only [IPFilter.unblock]
    exact IPFilter.blockTemporarily_whitelist _ _ _ _
  have hfbl : ((s.blockIp ip (some d) false now).unblockIp
      ip).ipFilter.blacklist = s.ipFilter.blacklist := by
    show ((s.ipFilter.blockTemporarily ip _ now).unblock ip).blacklist = _
    simp only [IPFilter.unblock]
    exact IPFilter.blockTemporarily_blacklist _ _ _ _
  have hquiet := MitigationSystem.processRequest_quiet
    ((s.blockIp ip (some d) false now).unblockIp ip) ip endpoint method t
    (by rw [hfwl]; exact hwl) (by rw [hfbl]; exact hbl)
    (updFn_same _ _ _) (updFn_same _ _ _) hrl htm hrate hmax
  exact ⟨updFn_same _ _ _, updFn_same _ _ _, updFn_same _ _ _, hquiet.1,
    hquiet.2.trans (updFn_same _ _ _)⟩

/-- C3 counterexample to the unamended claim: after filling the window,
blocking temporarily and unblocking, the very next request is denied
again by the rate limiter — `unblockIp` clears the block entry but not
the request window. -/
theorem unblock_restores_access_counterexample :
    (unblockCtrSys.processRequest "9.9.9.9" "/" "GET" 1).1 = false ∧
    (unblockCtrSys.processRequest "9.9.9.9" "/" "GET" 1).2.1 =
      .rateLimitExceeded := by
  decide

/-- C3 witness: a fresh default-parameter system, address `1.2.3.4`,
blocked at time 0 for 300 s, unblocked, then requesting at time 1. -/
theorem unblock_restores_access_witness :
    (((MitigationSystem.fresh true 100 60 300 10 10 3).blockIp "1.2.3.4"
      (some 300) false 0).unblockIp "1.2.3.4").ipFilter.tempBlocks "1.2.3.4" =
      none ∧
    (((MitigationSystem.fresh true 100 60 300 10 10 3).blockIp "1.2.3.4"
      (some 300) false 0).unblockIp
      "1.2.3.4").rateLimiter.blockedIps "1.2.3.4" = none ∧
    (((MitigationSystem.fresh true 100 60 300 10 10 3).blockIp "1.2.3.4"
      (some 300) false 0).unblockIp
      "1.2.3.4").trafficMonitor.ipViolations "1.2.3.4" = 0 ∧
    ((((MitigationSystem.fresh true 100 60 300 10 10 3).blockIp "1.2.3.4"
      (some 300) false 0).unblockIp "1.2.3.4").processRequest "1.2.3.4" "/"
      "GET" 1).1 = true ∧
    ((((MitigationSystem.fresh true 100 60 300 10 10 3).blockIp "1.2.3.4"
      (some 300) false 0).unblockIp "1.2.3.4").processRequest "1.2.3.4" "/"
      "GET" 1).2.2.trafficMonitor.ipViolations "1.2.3.4" = 0 :=
  unblock_restores_access (MitigationSystem.fresh true 100 60 300 10 10 3)
    "1.2.3.4" "/" "GET" 300 0 1 rfl rfl (by decide) (by decide) (by decide)
    (by decide)

theorem MitigationSystem.processRequest_tempBlocked (s : MitigationSystem)
    (ip endpoint method : String) (t e : ℚ)
    (hwl : ip ∉ s.ipFilter.whitelist) (hbl : ip ∉ s.ipFilter.blacklist)
    (htb : s.ipFilter.tempBlocks ip = some e) (ht : t < e) :
    (s.processRequest ip endpoint method t).1 = false ∧
    (s.processRequest ip endpoint method t).2.1 =
      .tempBlocked (truncInt (e - t)) := by
  have h_ia : s.ipFilter.isAllowed ip t =
      (false, .tempBlocked (truncInt (e - t)), s.ipFilter) := by
    simp only [IPFilter.isAllowed, if_neg hwl, if_neg hbl, htb, if_pos ht]
  constructor <;> simp only [MitigationSystem.processRequest, h_ia] <;> simp

set_option maxRecDepth 200000 in
/-- C1 counterexample to the unamended claim: in the 150-request
scenario the 102nd verdict (index 101) is a denial whose reason is the
IP filter's temp block — the auto-block escalation installed at the
101st request — not a rate-limiter reason. -/
theorem end_to_end_counterexample :
    endToEndRun.1.get? 101 = some (false, .tempBlocked 300) := by
  decide

set_option maxRecDepth 200000 in
/-- C1 (amended): the 150 same-second requests yield exactly 100 allowed
verdicts, then a denial with the rate-limiter reason; with auto-block
enabled (the default) the remaining 49 denials carry the temp-block
reason installed by the escalation; and any further request made before
300 seconds have elapsed is still denied. -/
theorem end_to_end_scenario :
    endToEndRun.1.take 100 =
      List.replicate 100 ((true, Reason.allowedOk) : Bool × Reason) ∧
    endToEndRun.1.get? 100 = some (false, .rateLimitExceeded) ∧
    endToEndRun.1.drop 101 =
      List.replicate 49 ((false, Reason.tempBlocked 300) : Bool × Reason) ∧
    (∀ t : ℚ, t < 300 →
      (endToEndRun.2.processRequest "10.0.0.1" "/" "GET" t).1 = false) := by
  refine ⟨by decide, by decide, by decide, fun t ht => ?_⟩
  exact (MitigationSystem.processRequest_tempBlocked endToEndRun.2 "10.0.0.1"
    "/" "GET" t 300 (by decide) (by decide) (by decide) ht).1

set_option maxRecDepth 200000 in
/-- C1 witness: a further request at `t = 100 < 300` is still denied. -/
theorem end_to_end_scenario_witness :
    ((100 : ℚ) < 300) ∧
    (endToEndRun.2.processRequest "10.0.0.1" "/" "GET" 100).1 = false :=
  ⟨by decide, end_to_end_scenario.2.2.2 100 (by decide)⟩
